import Mathlib

/-!
Verification of the DNA ingestion pipeline and data-stream client.

The definitions below are a shallow embedding of the Rust sources:
  - `src/dna/evm/src/ingestion/downloader.rs` (Block Downloader),
  - `src/dna/evm/src/ingestion/segmenter.rs` (Segmenter),
  - `src/sdk/src/lib.rs` (Data Stream Client).

Machine integers (`u64`) are modelled as `Nat` (none of the verified code
relies on wrap-around), async channels as emitted event traces, storage
backends as explicit lists of keys, and fallible code as `Except String`.
The interleaving of `tokio::select!` arms is modelled by an explicit input
list: each element of the list is the arm that fired next.
-/

namespace Dna

/-- A cursor identifying a block: `apibara_dna_common::core::Cursor`
(`{number: u64, hash: bytes}`); the hash is abstracted to a `Nat`. -/
structure Cursor where
  number : Nat
  hash : Nat
deriving DecidableEq, Repr

/-- `ChainChange` messages consumed by the downloader
(`src/dna/evm/src/ingestion/downloader.rs`, via `super::ChainChange`). -/
inductive ChainChange where
  | Initialize (head finalized : Cursor)
  | NewHead (c : Cursor)
  | NewFinalized (c : Cursor)
  | Invalidate
deriving DecidableEq, Repr

/-- `BlockEvent` emitted by the downloader (`downloader.rs`, lines 29-35). -/
inductive BlockEvent where
  | Started (finalized : Cursor)
  | Finalized (c : Cursor)
  | Ingested (c : Cursor)
  | Invalidate
deriving DecidableEq, Repr

/-- Mutable state of `download_loop` (`downloader.rs`, lines 90-188):
`head`, `current_block_number`, `is_downloading`, plus the set of staged
block files written by `download_block` (lines 248-251). -/
structure DownloaderState where
  head : Cursor
  current_block_number : Nat
  is_downloading : Bool
  staged : List Cursor
deriving DecidableEq, Repr

/-- Initialization phase of `download_loop` (`downloader.rs`, lines 99-137):
await the first chain change, require `Initialize`, check the finalized
cursor against the starting block, decide whether to start the first fetch,
and emit `Started`. -/
def downloadInit (first_block_number : Nat) :
    ChainChange → Except String (DownloaderState × List BlockEvent)
  | ChainChange.Initialize head finalized =>
    if finalized.number < first_block_number then
      Except.error "finalized block is behind the starting block"
    else
      Except.ok
        ({ head := head,
           current_block_number := first_block_number,
           is_downloading := decide (first_block_number < head.number),
           staged := [] },
         [BlockEvent.Started finalized])
  | _ => Except.error "expected chain initialization"

/-- One `tokio::select!` arm firing in the download loop: either the
in-flight block fetch completed, or a chain change arrived. -/
inductive DownloaderInput where
  | fetchDone
  | chain (c : ChainChange)
deriving DecidableEq, Repr

/-- One iteration of the `loop` in `download_loop` (`downloader.rs`, lines
139-185). `hashOf` is the hash the chain assigns to each block number; the
completed fetch returns the cursor of `current_block_number` and has staged
its block file. A `fetchDone` while no fetch is in flight corresponds to
the never-completing `future::pending()` and is a no-op. A second
`Initialize` falls into the `_ => {}` arm of the `match` (line 181). -/
def downloadStep (hashOf : Nat → Nat) (s : DownloaderState) :
    DownloaderInput → DownloaderState × List BlockEvent
  | DownloaderInput.fetchDone =>
    if s.is_downloading then
      let cursor : Cursor := ⟨s.current_block_number, hashOf s.current_block_number⟩
      let s := { s with staged := s.staged ++ [cursor] }
      if s.current_block_number < s.head.number then
        ({ s with current_block_number := s.current_block_number + 1 },
         [BlockEvent.Ingested cursor])
      else
        ({ s with is_downloading := false }, [BlockEvent.Ingested cursor])
    else (s, [])
  | DownloaderInput.chain (ChainChange.NewHead new_head) =>
    if s.is_downloading = false ∧ s.current_block_number < new_head.number then
      ({ head := new_head,
         current_block_number := s.current_block_number + 1,
         is_downloading := true,
         staged := s.staged }, [])
    else
      ({ s with head := new_head }, [])
  | DownloaderInput.chain (ChainChange.NewFinalized c) =>
    (s, [BlockEvent.Finalized c])
  | DownloaderInput.chain ChainChange.Invalidate =>
    (s, [BlockEvent.Invalidate])
  | DownloaderInput.chain (ChainChange.Initialize _ _) =>
    (s, [])

/-- Fold `downloadStep` over a list of select-arm firings, concatenating
the emitted events. -/
def downloadSteps (hashOf : Nat → Nat) (s : DownloaderState) :
    List DownloaderInput → DownloaderState × List BlockEvent
  | [] => (s, [])
  | i :: rest =>
    let step := downloadStep hashOf s i
    let next := downloadSteps hashOf step.1 rest
    (next.1, step.2 ++ next.2)

/-- A full run of `download_loop`: initialization on the first chain change
followed by the select loop. -/
def downloadRun (hashOf : Nat → Nat) (first_block_number : Nat)
    (first_change : ChainChange) (inputs : List DownloaderInput) :
    Except String (DownloaderState × List BlockEvent) :=
  match downloadInit first_block_number first_change with
  | Except.error e => Except.error e
  | Except.ok (s, evs) =>
    let next := downloadSteps hashOf s inputs
    Except.ok (next.1, evs ++ next.2)

/-- Block numbers carried by the `Ingested` events of a trace, in order. -/
def ingestedNumbers : List BlockEvent → List Nat
  | [] => []
  | BlockEvent.Ingested c :: rest => c.number :: ingestedNumbers rest
  | _ :: rest => ingestedNumbers rest

/-- Result extractor for downloader runs; the dummy value is only reached
on runs that end in an error. -/
def dRunOrDummy (r : Except String (DownloaderState × List BlockEvent)) :
    DownloaderState × List BlockEvent :=
  match r with
  | Except.ok x => x
  | Except.error _ => (⟨⟨0, 0⟩, 0, false, []⟩, [])

/-- Whether an `Except` result is a success. -/
def isOkE {ε α : Type} (r : Except ε α) : Bool :=
  match r with
  | Except.ok _ => true
  | Except.error _ => false

/-- A chain assigning hash `0` to every block, for concrete runs where
hashes are irrelevant. -/
def hash0 : Nat → Nat := fun _ => 0

/-- Cursor with hash `0`, for concrete runs. -/
def cur (n : Nat) : Cursor := ⟨n, 0⟩

/-- Modelled from the spec: `SegmentOptions {segment_size: N, group_size: M}`
(spec §3). The struct lives in the `apibara_dna_common` crate, which is not
part of this source tree. -/
structure SegmentOptions where
  segment_size : Nat
  group_size : Nat
deriving DecidableEq, Repr

/-- Modelled from the spec: `segment_start(n) = n − (n mod N)` (spec §3);
the implementation (`SegmentOptions::segment_start`) is in
`apibara_dna_common`, outside this source tree. -/
def SegmentOptions.segment_start (o : SegmentOptions) (n : Nat) : Nat :=
  n - n % o.segment_size

/-- Modelled from the spec: `group_start(n) = n − (n mod M)` (spec §3); the
implementation (`SegmentOptions::segment_group_start`) is in
`apibara_dna_common`, outside this source tree. -/
def SegmentOptions.segment_group_start (o : SegmentOptions) (n : Nat) : Nat :=
  n - n % o.group_size

/-- Modelled from the spec: ingestion counters of the snapshot,
`{group_count, extra_segment_count}` (spec §3); the `IngestionState` struct
is in `apibara_dna_common`, outside this source tree. -/
structure IngestionState where
  group_count : Nat
  extra_segment_count : Nat
deriving DecidableEq, Repr

/-- Modelled from the spec: `Snapshot {revision, segment_options, ingestion,
starting_block}` (spec §3); the struct is in `apibara_dna_common`, outside
this source tree. -/
structure Snapshot where
  revision : Nat
  segment_options : SegmentOptions
  ingestion : IngestionState
  starting_block : Nat
deriving DecidableEq, Repr

/-- `SnapshotChange` events emitted by the segmenter (spec §3; the enum is
declared in `apibara_dna_common`, used by `segmenter.rs`). -/
inductive SnapshotChange where
  | Started (s : Snapshot)
  | BlockIngested (c : Cursor)
  | StateChanged (new_state : IngestionState) (finalized : Cursor)
deriving DecidableEq, Repr

/-- In-progress segment buffer of the segmenter worker
(`segmenter.rs`, lines 43-46). -/
structure SegmentData where
  group_start : Cursor
  cursors : List Cursor
deriving DecidableEq, Repr

/-- State of the segmenter worker (`segmenter.rs`, lines 34-41) together
with its observable environment: the staged block files present in local
storage, the `segment/...` and `group/...` keys written to durable storage,
the sequence of snapshot documents published by `write_snapshot`, and the
emitted `SnapshotChange` events. -/
structure SegmenterState where
  snapshot : Snapshot
  finalized : Cursor
  segment : Option SegmentData
  local_blocks : List Cursor
  segment_keys : List Nat
  group_keys : List Nat
  published : List Snapshot
  events : List SnapshotChange
deriving DecidableEq, Repr

/-- `Worker::do_write_segment_if_needed` (`segmenter.rs`, lines 227-347).
Follows the source exactly: require a full segment whose `segment_size`-th
cursor is finalized; split the buffered cursors at the next segment start;
read each staged block from local storage (an absent file is an I/O error);
the `assert_eq!(header_count, segment_size)` panic is modelled as an error;
write the segment key; bump `revision` and `extra_segment_count`; on a
group boundary bump `group_count`, reset `extra_segment_count`, and clear
the in-progress segment (the group artifact itself is a `TODO` in the
source and is never written); finally publish the snapshot. Note the
source never deletes the staged block files (deletion appears only in the
comment at lines 227-235). -/
def doWriteSegmentIfNeeded (s : SegmenterState) :
    Except String (SegmenterState × Bool) :=
  match s.segment with
  | none => Except.ok (s, false)
  | some segment_data =>
    match segment_data.cursors with
    | [] => Except.ok (s, false)
    | first_cursor :: _ =>
      match segment_data.cursors.get? (s.snapshot.segment_options.segment_size - 1) with
      | none => Except.ok (s, false)
      | some last_cursor =>
        if s.finalized.number < last_cursor.number then
          Except.ok (s, false)
        else
          let segment_options := s.snapshot.segment_options
          let current_segment_start := segment_options.segment_start first_cursor.number
          let next_segment_start := segment_options.segment_start (last_cursor.number + 1)
          let cursors_to_segment :=
            segment_data.cursors.filter (fun c => decide (c.number < next_segment_start))
          let cursors_to_keep :=
            segment_data.cursors.filter (fun c => ! decide (c.number < next_segment_start))
          let current_group_start :=
            segment_options.segment_group_start segment_data.group_start.number
          match cursors_to_segment.getLast? with
          | none => Except.error "at least one cursor"
          | some last_to_segment =>
            let next_group_start :=
              segment_options.segment_group_start (last_to_segment.number + 1)
            if cursors_to_segment.all (fun c => decide (c ∈ s.local_blocks)) then
              if cursors_to_segment.length = segment_options.segment_size then
                let s1 := { s with segment_keys := s.segment_keys ++ [current_segment_start] }
                let snap := { s1.snapshot with
                  revision := s1.snapshot.revision + 1,
                  ingestion := { s1.snapshot.ingestion with
                    extra_segment_count := s1.snapshot.ingestion.extra_segment_count + 1 } }
                if current_group_start = next_group_start then
                  Except.ok
                    ({ s1 with
                        snapshot := snap,
                        segment := some { segment_data with cursors := cursors_to_keep },
                        published := s1.published ++ [snap] },
                     true)
                else
                  let snap2 := { snap with
                    ingestion := { group_count := snap.ingestion.group_count + 1,
                                   extra_segment_count := 0 } }
                  Except.ok
                    ({ s1 with
                        snapshot := snap2,
                        segment := none,
                        published := s1.published ++ [snap2] },
                     true)
              else
                Except.error "assertion failed: header count equals segment size"
            else
              Except.error "failed to read block"

/-- `Worker::write_segment_if_needed` (`segmenter.rs`, lines 208-224): loop
`do_write_segment_if_needed` until it returns `false`, emitting a
`StateChanged` event after each written segment. The loop is fueled; each
successful iteration either strictly shrinks the cursor buffer or clears
the segment, so `cursors.length + 1` fuel always suffices. -/
def writeSegmentLoop : Nat → SegmenterState → Except String SegmenterState
  | 0, s => Except.ok s
  | fuel + 1, s =>
    match doWriteSegmentIfNeeded s with
    | Except.error e => Except.error e
    | Except.ok (s', false) => Except.ok s'
    | Except.ok (s', true) =>
      writeSegmentLoop fuel
        { s' with events := s'.events ++
            [SnapshotChange.StateChanged s'.snapshot.ingestion s'.finalized] }

/-- Number of cursors buffered in the in-progress segment. -/
def cursorCount (s : SegmenterState) : Nat :=
  match s.segment with
  | none => 0
  | some sd => sd.cursors.length

/-- `write_segment_if_needed` with enough fuel for its worst case. -/
def writeSegmentIfNeeded (s : SegmenterState) : Except String SegmenterState :=
  writeSegmentLoop (cursorCount s + 1) s

/-- `Worker::handle_event` (`segmenter.rs`, lines 142-205). On `Ingested`:
open a segment if none is in progress (emitting `BlockIngested`); otherwise
push the cursor and, when it lies at or above the finalized cursor's
segment start, emit `BlockIngested` and return early, else attempt to
seal. On `Finalized`: update the finalized cursor and attempt to seal.
`Invalidate` is a `todo!()` (modelled as an error); any other event is
fatal. -/
def handleEvent (s : SegmenterState) : BlockEvent → Except String SegmenterState
  | BlockEvent.Ingested cursor =>
    match s.segment with
    | none =>
      Except.ok { s with
        segment := some { group_start := cursor, cursors := [cursor] },
        events := s.events ++ [SnapshotChange.BlockIngested cursor] }
    | some segment_data =>
      let segment_data := { segment_data with cursors := segment_data.cursors ++ [cursor] }
      let s := { s with segment := some segment_data }
      let finalized_segment_start :=
        s.snapshot.segment_options.segment_start s.finalized.number
      if finalized_segment_start ≤ cursor.number then
        Except.ok { s with events := s.events ++ [SnapshotChange.BlockIngested cursor] }
      else
        writeSegmentIfNeeded s
  | BlockEvent.Finalized cursor =>
    writeSegmentIfNeeded { s with finalized := cursor }
  | BlockEvent.Invalidate =>
    Except.error "todo: invalidate handling"
  | BlockEvent.Started _ =>
    Except.error "unexpected event in ingestion stream"

/-- Initialization of `segmenter_loop` (`segmenter.rs`, lines 86-117): the
first event must be `Started`; it fixes the finalized cursor and emits
`SnapshotChange::Started` with the starting snapshot. `local0` is the set
of staged block files already written by the downloader. -/
def segmenterInit (starting_snapshot : Snapshot) (local0 : List Cursor) :
    BlockEvent → Except String SegmenterState
  | BlockEvent.Started fin =>
    Except.ok
      { snapshot := starting_snapshot,
        finalized := fin,
        segment := none,
        local_blocks := local0,
        segment_keys := [],
        group_keys := [],
        published := [],
        events := [SnapshotChange.Started starting_snapshot] }
  | _ => Except.error "expected first event to be BlockEvent::Started"

/-- Fold `handleEvent` over the remaining block events. -/
def segmenterSteps (s : SegmenterState) : List BlockEvent → Except String SegmenterState
  | [] => Except.ok s
  | e :: rest =>
    match handleEvent s e with
    | Except.error msg => Except.error msg
    | Except.ok s' => segmenterSteps s' rest

/-- A full run of `segmenter_loop` on a list of block events. -/
def segmenterRun (starting_snapshot : Snapshot) (local0 : List Cursor) :
    List BlockEvent → Except String SegmenterState
  | [] => Except.error "ingestion events stream ended unexpectedly"
  | e :: rest =>
    match segmenterInit starting_snapshot local0 e with
    | Except.error msg => Except.error msg
    | Except.ok s => segmenterSteps s rest

/-- Result extractor for segmenter runs; the dummy value is only reached on
runs that end in an error. -/
def sRunOrDummy (r : Except String SegmenterState) : SegmenterState :=
  match r with
  | Except.ok s => s
  | Except.error _ =>
    { snapshot := ⟨0, ⟨1, 1⟩, ⟨0, 0⟩, 0⟩,
      finalized := ⟨0, 0⟩, segment := none, local_blocks := [],
      segment_keys := [], group_keys := [], published := [], events := [] }

/-- Relation between two consecutively published snapshots claimed by the
spec: the revision strictly increases, and exactly one of the two counter
patterns holds. -/
def consecOk (a b : Snapshot) : Prop :=
  a.revision < b.revision ∧
  ((b.ingestion.extra_segment_count = a.ingestion.extra_segment_count + 1 ∧
      b.ingestion.group_count = a.ingestion.group_count) ∧
    ¬ (b.ingestion.group_count = a.ingestion.group_count + 1 ∧
        b.ingestion.extra_segment_count = 0) ∨
   (b.ingestion.group_count = a.ingestion.group_count + 1 ∧
      b.ingestion.extra_segment_count = 0) ∧
    ¬ (b.ingestion.extra_segment_count = a.ingestion.extra_segment_count + 1 ∧
        b.ingestion.group_count = a.ingestion.group_count))

instance (a b : Snapshot) : Decidable (consecOk a b) := by
  unfold consecOk
  infer_instance

/-- Data stream `Configuration` consumed by the client
(`src/sdk/src/lib.rs` via `sdk/src/configuration.rs`): batch size,
starting cursor, finality, and a filter of type `F`. -/
structure Configuration (F : Type) where
  batch_size : Nat
  starting_cursor : Option Cursor
  finality : Option Nat
  filter : F
deriving DecidableEq, Repr

/-- `StreamDataRequest` forwarded to the server (`sdk/src/lib.rs`, lines
242-248); the filter is kept as `F` (the source protobuf-encodes it). -/
structure StreamDataRequest (F : Type) where
  stream_id : Option Nat
  batch_size : Option Nat
  starting_cursor : Option Cursor
  finality : Option Nat
  filter : F
deriving DecidableEq, Repr

/-- Payload of a `Data` response: batch items are raw byte strings,
modelled as `List Nat`. -/
structure DataPayload where
  cursor : Option Cursor
  end_cursor : Option Cursor
  finality : Nat
  data : List (List Nat)
deriving DecidableEq, Repr

/-- The `message` oneof of `StreamDataResponse`. -/
inductive ResponseMessage where
  | Data (d : DataPayload)
  | Invalidate (cursor : Option Cursor)
  | Heartbeat
deriving DecidableEq, Repr

/-- `StreamDataResponse` received from the server. -/
structure StreamDataResponse where
  stream_id : Nat
  message : Option ResponseMessage
deriving DecidableEq, Repr

/-- `DataMessage` yielded by the client (`sdk/src/lib.rs`, lines 60-80),
generic over the decoded record type `D`. -/
inductive DataMessage (D : Type) where
  | Data (cursor : Option Cursor) (end_cursor : Cursor) (finality : Nat) (batch : List D)
  | Invalidate (cursor : Option Cursor)
  | Heartbeat
deriving DecidableEq, Repr

/-- Default cursor (`Cursor::default()`), used by `unwrap_or_default` on a
missing `end_cursor`. -/
def defaultCursor : Cursor := ⟨0, 0⟩

/-- What `DataStream::poll_next` observed on the poll being modelled:
either the configuration stream produced a new configuration (checked
first by the source), or the inner server stream produced a response. -/
inductive ClientInput (F : Type) where
  | config (c : Configuration F)
  | response (r : StreamDataResponse)
deriving DecidableEq, Repr

/-- Observable effect of one poll: a request forwarded to the server or a
message yielded to the caller, the latter tagged with the `stream_id` of
the server response it came from. -/
inductive ClientEvent (F D : Type) where
  | forwarded (req : StreamDataRequest F)
  | yielded (response_id : Nat) (m : DataMessage D)
deriving DecidableEq, Repr

/-- Client-side state of `DataStream` (`sdk/src/lib.rs`, line 108): the
local `stream_id` counter. -/
structure ClientState where
  stream_id : Nat
deriving DecidableEq, Repr

/-- One call to `DataStream::poll_next` (`sdk/src/lib.rs`, lines 236-306).
On a new configuration: bump `stream_id` and forward the request (no
yield). On a response: discard it when its `stream_id` differs from the
local counter; otherwise yield `Data` (decoding each batch item with
`decode` and silently dropping failures), yield `Invalidate`, or absorb a
`Heartbeat` / empty message. -/
def pollStep {F D : Type} (decode : List Nat → Option D) (s : ClientState) :
    ClientInput F → ClientState × List (ClientEvent F D)
  | ClientInput.config c =>
    let new_id := s.stream_id + 1
    ({ stream_id := new_id },
     [ClientEvent.forwarded
        { stream_id := some new_id,
          batch_size := some c.batch_size,
          starting_cursor := c.starting_cursor,
          finality := c.finality,
          filter := c.filter }])
  | ClientInput.response r =>
    if r.stream_id = s.stream_id then
      match r.message with
      | none => (s, [])
      | some (ResponseMessage.Data d) =>
        (s, [ClientEvent.yielded r.stream_id
              (DataMessage.Data d.cursor (d.end_cursor.getD defaultCursor) d.finality
                (d.data.filterMap decode))])
      | some (ResponseMessage.Invalidate c) =>
        (s, [ClientEvent.yielded r.stream_id (DataMessage.Invalidate c)])
      | some ResponseMessage.Heartbeat => (s, [])
    else (s, [])

/-- Fold `pollStep` over a list of poll observations, concatenating the
observable events. -/
def clientSteps {F D : Type} (decode : List Nat → Option D) (s : ClientState) :
    List (ClientInput F) → ClientState × List (ClientEvent F D)
  | [] => (s, [])
  | i :: rest =>
    let step := pollStep decode s i
    let next := clientSteps decode step.1 rest
    (next.1, step.2 ++ next.2)

/-- A full client run starting from the initial `stream_id = 0`
(`sdk/src/lib.rs`, line 206). -/
def clientRun {F D : Type} (decode : List Nat → Option D)
    (inputs : List (ClientInput F)) : ClientState × List (ClientEvent F D) :=
  clientSteps decode { stream_id := 0 } inputs

/-- Every yielded message in the trace carries the `stream_id` of the most
recently forwarded request (or the initial counter value when none was
forwarded yet). -/
def yieldsMatch {F D : Type} : Nat → List (ClientEvent F D) → Prop
  | _, [] => True
  | last_id, ClientEvent.forwarded req :: rest =>
    yieldsMatch (req.stream_id.getD last_id) rest
  | last_id, ClientEvent.yielded rid _ :: rest =>
    rid = last_id ∧ yieldsMatch last_id rest

/-- `DataMessage::from_stream_data_response` (`sdk/src/lib.rs`, lines
309-337), generic over the record decoder. -/
def DataMessage.from_stream_data_response {D : Type} (decode : List Nat → Option D)
    (r : StreamDataResponse) : Option (DataMessage D) :=
  match r.message with
  | none => none
  | some ResponseMessage.Heartbeat => some DataMessage.Heartbeat
  | some (ResponseMessage.Data d) =>
    some (DataMessage.Data d.cursor (d.end_cursor.getD defaultCursor) d.finality
      (d.data.filterMap decode))
  | some (ResponseMessage.Invalidate c) =>
    some (DataMessage.Invalidate c)

/-- A decoder that accepts only the byte string `[0]`; used to exhibit a
batch that shrinks because one item fails to decode. -/
def decodeZeroOnly : List Nat → Option Nat
  | [0] => some 0
  | _ => none

/-- Starting snapshot with `segment_size = 4`, `group_size = 16`,
`revision = 0` and zeroed counters. -/
def snapN4M16 : Snapshot := ⟨0, ⟨4, 16⟩, ⟨0, 0⟩, 0⟩

/-- Starting snapshot with `segment_size = 4`, `group_size = 4`,
`revision = 0` and zeroed counters. -/
def snapN4M4 : Snapshot := ⟨0, ⟨4, 4⟩, ⟨0, 0⟩, 0⟩

/-- Staged block files for blocks 0..=4, as written by the downloader. -/
def localBlocks04 : List Cursor := [cur 0, cur 1, cur 2, cur 3, cur 4]

/-- Block events of spec scenario 2 up to the ingestion of block 4:
`Started{finalized: 4}` followed by `Ingested` for blocks 0..=4. -/
def eventsScenario2Prefix : List BlockEvent :=
  [BlockEvent.Started (cur 4),
   BlockEvent.Ingested (cur 0), BlockEvent.Ingested (cur 1),
   BlockEvent.Ingested (cur 2), BlockEvent.Ingested (cur 3),
   BlockEvent.Ingested (cur 4)]

/-- Block events of spec scenario 2 in full, ending with `Finalized(7)`. -/
def eventsScenario2Full : List BlockEvent :=
  eventsScenario2Prefix ++ [BlockEvent.Finalized (cur 7)]

/-- Block events for a run that crosses a group boundary with
`group_size = segment_size = 4`: `Started{finalized: 10}` followed by
`Ingested` for blocks 0..=3. -/
def eventsGroupSeal : List BlockEvent :=
  [BlockEvent.Started (cur 10),
   BlockEvent.Ingested (cur 0), BlockEvent.Ingested (cur 1),
   BlockEvent.Ingested (cur 2), BlockEvent.Ingested (cur 3)]

/-- Block events for a run starting at the unaligned block 2:
`Started{finalized: 10}` followed by `Ingested` for blocks 2..=5. -/
def eventsUnalignedStart : List BlockEvent :=
  [BlockEvent.Started (cur 10),
   BlockEvent.Ingested (cur 2), BlockEvent.Ingested (cur 3),
   BlockEvent.Ingested (cur 4), BlockEvent.Ingested (cur 5)]

/-- Staged block files for blocks 2..=5. -/
def localBlocks25 : List Cursor := [cur 2, cur 3, cur 4, cur 5]

/-- Auxiliary invariant: whenever the list of published snapshots is
nonempty, its last element is the segmenter's current snapshot. -/
def lastPubOk (s : SegmenterState) : Prop :=
  ∀ a, s.published.getLast? = some a → a = s.snapshot

/-- Invariant carried through segmenter runs: consecutive published
snapshots are related by `consecOk`, and the last published snapshot (if
any) is the current one. -/
def pubInv (s : SegmenterState) : Prop :=
  List.Chain' consecOk s.published ∧ lastPubOk s

theorem doWrite_cases (s s' : SegmenterState) (b : Bool)
    (h : doWriteSegmentIfNeeded s = Except.ok (s', b)) :
    (s' = s ∧ b = false) ∨
    (b = true ∧ s'.published = s.published ++ [s'.snapshot] ∧
      consecOk s.snapshot s'.snapshot) := by
  unfold doWriteSegmentIfNeeded at h
  rcases hseg : s.segment with _ | sd <;>
    simp only [hseg, Except.ok.injEq, Prod.mk.injEq] at h
  · exact Or.inl ⟨h.1.symm, h.2.symm⟩
  · rcases hcs : sd.cursors with _ | ⟨fc, rest⟩ <;>
      simp only [hcs, Except.ok.injEq, Prod.mk.injEq] at h
    · exact Or.inl ⟨h.1.symm, h.2.symm⟩
    · rcases hnth : (fc :: rest).get? (s.snapshot.segment_options.segment_size - 1)
        with _ | lc <;> simp only [hnth, Except.ok.injEq, Prod.mk.injEq] at h
      · exact Or.inl ⟨h.1.symm, h.2.symm⟩
      · by_cases hfin : s.finalized.number < lc.number
        · simp only [if_pos hfin, Except.ok.injEq, Prod.mk.injEq] at h
          exact Or.inl ⟨h.1.symm, h.2.symm⟩
        · simp only [if_neg hfin] at h
          rcases hlast : ((fc :: rest).filter
              (fun c => decide (c.number <
                s.snapshot.segment_options.segment_start (lc.number + 1)))).getLast?
            with _ | lts <;> simp only [hlast, Except.ok.injEq, Prod.mk.injEq] at h
          · exact absurd h (by simp)
          · split at h
            · split at h
              · split at h <;>
                  (simp only [Except.ok.injEq, Prod.mk.injEq] at h
                   obtain ⟨h1, h2⟩ := h
                   subst h1
                   refine Or.inr ⟨h2.symm, rfl, ?_⟩
                   simp [consecOk])
              · exact absurd h (by simp)
            · exact absurd h (by simp)

theorem writeSegmentLoop_pubInv (fuel : Nat) :
    ∀ s s', writeSegmentLoop fuel s = Except.ok s' → pubInv s → pubInv s' := by
  induction fuel with
  | zero =>
    intro s s' h hInv
    simp only [writeSegmentLoop, Except.ok.injEq] at h
    exact h ▸ hInv
  | succ n ih =>
    intro s s' h hInv
    unfold writeSegmentLoop at h
    rcases hw : doWriteSegmentIfNeeded s with e | ⟨t, b⟩ <;> rw [hw] at h
    · exact absurd h (by simp)
    · rcases doWrite_cases s t b hw with ⟨hts, hb⟩ | ⟨hb, hpub, hco⟩
      · subst hb
        simp only [Except.ok.injEq] at h
        exact h ▸ (hts ▸ hInv)
      · subst hb
        refine ih _ s' h ?_
        obtain ⟨hChain, hLast⟩ := hInv
        constructor
        · show List.Chain' consecOk (t.published)
          rw [hpub, List.chain'_append]
          refine ⟨hChain, List.chain'_singleton _, ?_⟩
          intro x hx y hy
          simp only [List.head?_cons, Option.mem_def, Option.some.injEq] at hy
          rw [hLast x hx, ← hy]
          exact hco
        · intro a ha
          show a = t.snapshot
          rw [hpub, List.getLast?_concat] at ha
          exact (Option.some.injEq _ _ ▸ ha).symm

theorem writeSegmentIfNeeded_pubInv (s s' : SegmenterState)
    (h : writeSegmentIfNeeded s = Except.ok s') (hInv : pubInv s) : pubInv s' :=
  writeSegmentLoop_pubInv _ _ _ h hInv

theorem handleEvent_pubInv (s s' : SegmenterState) (e : BlockEvent)
    (h : handleEvent s e = Except.ok s') (hInv : pubInv s) : pubInv s' := by
  cases e with
  | Ingested cursor =>
    unfold handleEvent at h
    rcases hseg : s.segment with _ | sd <;> simp only [hseg] at h
    · simp only [Except.ok.injEq] at h
      subst h
      exact hInv
    · split at h
      · simp only [Except.ok.injEq] at h
        subst h
        exact hInv
      · exact writeSegmentIfNeeded_pubInv _ _ h hInv
  | Finalized cursor =>
    unfold handleEvent at h
    exact writeSegmentIfNeeded_pubInv _ _ h hInv
  | Invalidate => exact absurd h (by simp [handleEvent])
  | Started fin => exact absurd h (by simp [handleEvent])

theorem segmenterSteps_pubInv :
    ∀ (events : List BlockEvent) (s s' : SegmenterState),
      segmenterSteps s events = Except.ok s' → pubInv s → pubInv s' := by
  intro events
  induction events with
  | nil =>
    intro s s' h hInv
    simp only [segmenterSteps, Except.ok.injEq] at h
    exact h ▸ hInv
  | cons e rest ih =>
    intro s s' h hInv
    unfold segmenterSteps at h
    rcases he : handleEvent s e with msg | t <;> simp only [he, reduceCtorEq] at h
    exact ih t s' h (handleEvent_pubInv s t e he hInv)

theorem segmenterInit_pubInv (snap : Snapshot) (local0 : List Cursor)
    (e : BlockEvent) (t : SegmenterState)
    (h : segmenterInit snap local0 e = Except.ok t) : pubInv t := by
  cases e <;> simp only [segmenterInit, Except.ok.injEq, reduceCtorEq] at h
  subst h
  exact ⟨List.chain'_nil, fun a ha => by simp at ha⟩

theorem segmenterRun_pubInv (snap : Snapshot) (local0 : List Cursor)
    (events : List BlockEvent) (s : SegmenterState)
    (h : segmenterRun snap local0 events = Except.ok s) : pubInv s := by
  cases events with
  | nil => exact absurd h (by simp [segmenterRun])
  | cons e rest =>
    unfold segmenterRun at h
    rcases hi : segmenterInit snap local0 e with msg | t <;>
      simp only [hi, reduceCtorEq] at h
    exact segmenterSteps_pubInv rest t s h (segmenterInit_pubInv snap local0 e t hi)

theorem clientSteps_yieldsMatch {F D : Type} (decode : List Nat → Option D) :
    ∀ (inputs : List (ClientInput F)) (s : ClientState),
      yieldsMatch s.stream_id (clientSteps decode s inputs).2 := by
  intro inputs
  induction inputs with
  | nil => intro s; simp [clientSteps, yieldsMatch]
  | cons i rest ih =>
    intro s
    cases i with
    | config c =>
      simp only [clientSteps, pollStep, List.cons_append, List.nil_append, yieldsMatch,
        Option.getD_some]
      exact ih ⟨s.stream_id + 1⟩
    | response r =>
      by_cases hid : r.stream_id = s.stream_id
      · cases hm : r.message with
        | none =>
          simp only [clientSteps, pollStep, hid, if_true, eq_self_iff_true, hm,
            List.nil_append]
          exact ih s
        | some m =>
          cases m with
          | Data d =>
            simp only [clientSteps, pollStep, hid, eq_self_iff_true, if_true, hm,
              List.cons_append, List.nil_append, yieldsMatch]
            exact ⟨trivial, ih s⟩
          | Invalidate c =>
            simp only [clientSteps, pollStep, hid, eq_self_iff_true, if_true, hm,
              List.cons_append, List.nil_append, yieldsMatch]
            exact ⟨trivial, ih s⟩
          | Heartbeat =>
            simp only [clientSteps, pollStep, hid, eq_self_iff_true, if_true, hm,
              List.nil_append]
            exact ih s
      · simp only [clientSteps, pollStep, hid, if_false, if_neg hid, List.nil_append]
        exact ih s

/-- Claim C1. The claim states that the `Ingested` block numbers of every
downloader run are strictly increasing and contiguous starting from
`first_block_number`. The code violates this: starting at
`first_block_number = 5` with `Initialize{head: 5, finalized: 5}` (so the
initial fetch is not started), a subsequent `NewHead(6)` increments
`current_block_number` before starting the fetch, so the run ingests
block 6 and never block 5 — the `Ingested` numbers are `[6]`, which does
not start at 5. -/
theorem c1_block_skipped_after_new_head :
    ingestedNumbers (dRunOrDummy (downloadRun hash0 5
      (ChainChange.Initialize (cur 5) (cur 5))
      [DownloaderInput.chain (ChainChange.NewHead (cur 6)),
       DownloaderInput.fetchDone])).2 = [6] ∧
    5 ∉ ingestedNumbers (dRunOrDummy (downloadRun hash0 5
      (ChainChange.Initialize (cur 5) (cur 5))
      [DownloaderInput.chain (ChainChange.NewHead (cur 6)),
       DownloaderInput.fetchDone])).2 := by
  decide

/-- Claim C2, counterexample. The claim states that with finalized = 4,
`first_block_number = 0` and `N = 4`, no segment is sealed after ingesting
blocks 0..=4 and the revision becomes 1 only after `NewFinalized(7)`. In
fact the code seals the segment for blocks 0..=3 already upon ingesting
block 3: after `Started{finalized: 4}` and `Ingested 0..=4` — with no
`Finalized` event at all — the revision is already 1 and the key
`segment/0` has been written. -/
theorem c2_counterexample :
    (sRunOrDummy (segmenterRun snapN4M16 localBlocks04
        eventsScenario2Prefix)).snapshot.revision = 1 ∧
    (sRunOrDummy (segmenterRun snapN4M16 localBlocks04
        eventsScenario2Prefix)).segment_keys = [0] := by
  decide

/-- Claim C2, amended: in the scenario finalized = 4, head = 4,
`first_block_number = 0`, `N = 4`, the segment for blocks 0..=3 is sealed
as soon as block 3 is ingested (block 3 lies below the finalized cursor's
segment start 4), and the snapshot revision becomes 1 at that point; the
subsequent `NewFinalized(7)` seals nothing further — after the full
scenario exactly one snapshot (revision 1, one extra segment) has been
published and only `segment/0` was written. -/
theorem c2_amended :
    (sRunOrDummy (segmenterRun snapN4M16 localBlocks04
        eventsScenario2Prefix)).published =
      [{ revision := 1, segment_options := ⟨4, 16⟩,
         ingestion := ⟨0, 1⟩, starting_block := 0 }] ∧
    (sRunOrDummy (segmenterRun snapN4M16 localBlocks04
        eventsScenario2Full)).published =
      [{ revision := 1, segment_options := ⟨4, 16⟩,
         ingestion := ⟨0, 1⟩, starting_block := 0 }] ∧
    (sRunOrDummy (segmenterRun snapN4M16 localBlocks04
        eventsScenario2Full)).segment_keys = [0] := by
  decide

/-- Claim C3. For every successful segmenter run, any two consecutively
published snapshots satisfy: the revision strictly increases, and exactly
one of the following holds — `extra_segment_count` increases by 1 with
`group_count` unchanged, or `group_count` increases by 1 and
`extra_segment_count` resets to 0. -/
theorem c3_consecutive_publishes (snap : Snapshot) (local0 : List Cursor)
    (events : List BlockEvent) (s : SegmenterState)
    (h : segmenterRun snap local0 events = Except.ok s) :
    List.Chain' consecOk s.published :=
  (segmenterRun_pubInv snap local0 events s h).1

/-- Claim C3, witness: the scenario-2 run publishes a snapshot and the
consecutive-snapshot relation holds on its publish list. -/
theorem c3_witness :
    List.Chain' consecOk
      (sRunOrDummy (segmenterRun snapN4M16 localBlocks04 eventsScenario2Full)).published :=
  c3_consecutive_publishes snapN4M16 localBlocks04 eventsScenario2Full
    (sRunOrDummy (segmenterRun snapN4M16 localBlocks04 eventsScenario2Full))
    (by rfl)

/-- Claim C4. The claim states that a staged block file exists iff its
cursor is held in the in-progress `segment.cursors` buffer, the Segmenter
deleting staged files of sealed cursors after a successful publish. The
code never deletes staged files: after the scenario-2 run has sealed and
published the segment for blocks 0..=3 (key `segment/0`), the staged files
for blocks 0..=4 are all still present in local storage while the cursor
buffer holds only block 4. -/
theorem c4_staged_blocks_survive_publish :
    (sRunOrDummy (segmenterRun snapN4M16 localBlocks04
        eventsScenario2Full)).segment_keys = [0] ∧
    (sRunOrDummy (segmenterRun snapN4M16 localBlocks04
        eventsScenario2Full)).local_blocks = localBlocks04 ∧
    (sRunOrDummy (segmenterRun snapN4M16 localBlocks04
        eventsScenario2Full)).segment = some ⟨cur 0, [cur 4]⟩ := by
  decide

/-- Claim C5. The claim states that every segment and group key referenced
by a published snapshot exists in durable storage when the snapshot is
written. The code never writes the group artifact (a `TODO` in
`segmenter.rs`): with `N = M = 4`, ingesting blocks 0..=3 under
finalized = 10 publishes a snapshot with `group_count = 1` while no
`group/...` key was ever written. -/
theorem c5_group_artifact_missing :
    (sRunOrDummy (segmenterRun snapN4M4 localBlocks04 eventsGroupSeal)).published =
      [{ revision := 1, segment_options := ⟨4, 4⟩,
         ingestion := ⟨1, 0⟩, starting_block := 0 }] ∧
    (sRunOrDummy (segmenterRun snapN4M4 localBlocks04 eventsGroupSeal)).group_keys = [] := by
  decide

/-- Claim C6. The claim states that the assertion comparing the segment
builder's header count to `segment_size` never fails, for every
`first_block_number`. It does fail: starting ingestion at the unaligned
block 2 with `N = 4` and finalized = 10, the fourth ingested cursor
(block 5) triggers a seal that appends only blocks 2..=3 (the blocks below
the next segment start 4), so the assertion `header_count == segment_size`
fires with 2 ≠ 4. -/
theorem c6_assertion_failure :
    segmenterRun snapN4M16 localBlocks25 eventsUnalignedStart =
      Except.error "assertion failed: header count equals segment size" := by
  rfl

/-- Claim C7, counterexample. The claim states that a second `Initialize`
after the first causes the download loop to terminate with a fatal error.
In fact a second `Initialize` falls into the `_ => {}` arm of the select
loop and is silently ignored: the run below receives `Initialize` twice,
terminates without error, and emits nothing beyond the initial
`Started`. -/
theorem c7_counterexample :
    isOkE (downloadRun hash0 0 (ChainChange.Initialize (cur 1) (cur 1))
      [DownloaderInput.chain (ChainChange.Initialize (cur 5) (cur 5))]) = true ∧
    (dRunOrDummy (downloadRun hash0 0 (ChainChange.Initialize (cur 1) (cur 1))
      [DownloaderInput.chain (ChainChange.Initialize (cur 5) (cur 5))])).2 =
      [BlockEvent.Started (cur 1)] := by
  decide

/-- Claim C7, amended: a first ChainChange message that is not `Initialize`
causes the download loop to terminate with the fatal error "expected chain
initialization", while a second `Initialize` received after the first is
silently ignored — it changes no state and emits no event. -/
theorem c7_initialize_discipline :
    (∀ (n : Nat) (c : Cursor),
      downloadInit n (ChainChange.NewHead c) =
        Except.error "expected chain initialization") ∧
    (∀ (n : Nat) (c : Cursor),
      downloadInit n (ChainChange.NewFinalized c) =
        Except.error "expected chain initialization") ∧
    (∀ n : Nat,
      downloadInit n ChainChange.Invalidate =
        Except.error "expected chain initialization") ∧
    (∀ (hashOf : Nat → Nat) (s : DownloaderState) (h f : Cursor),
      downloadStep hashOf s (DownloaderInput.chain (ChainChange.Initialize h f)) =
        (s, [])) :=
  ⟨fun _ _ => rfl, fun _ _ => rfl, fun _ => rfl, fun _ _ _ _ => rfl⟩

/-- Claim C8, counterexample. The claim states that
`Initialize{head: 3, finalized: 5}` with `first_block_number = 0` fails
fatally with "finalized block is behind the starting block". It does not:
the guard only fires when `finalized.number < first_block_number`, and
`5 < 0` is false, so initialization succeeds, emits `Started{finalized: 5}`
and starts downloading block 0. -/
theorem c8_counterexample :
    downloadInit 0 (ChainChange.Initialize (cur 3) (cur 5)) =
      Except.ok
        ({ head := cur 3, current_block_number := 0,
           is_downloading := true, staged := [] },
         [BlockEvent.Started (cur 5)]) := by
  rfl

/-- Claim C8, amended: given a first chain change
`Initialize{head: 3, finalized: 5}` with `first_block_number = 0` the
downloader does not fail; in general, initialization fails with
"finalized block is behind the starting block" exactly when
`finalized.number < first_block_number`. -/
theorem c8_finalized_check :
    isOkE (downloadInit 0 (ChainChange.Initialize (cur 3) (cur 5))) = true ∧
    (∀ (first_block_number : Nat) (head fin : Cursor),
      downloadInit first_block_number (ChainChange.Initialize head fin) =
          Except.error "finalized block is behind the starting block" ↔
        fin.number < first_block_number) := by
  refine ⟨by decide, ?_⟩
  intro first_block_number head fin
  by_cases hc : fin.number < first_block_number
  · simp [downloadInit, hc]
  · simp [downloadInit, hc]

/-- Claim C9. For every sequence of poll observations, every message the
client yields carries the `stream_id` of the most recently forwarded
configuration request (the initial counter 0 when none was forwarded), and
a server response whose `stream_id` differs from the client's current one
is discarded: the poll produces no event and leaves the state unchanged. -/
theorem c9_yields_match_forwarded_id :
    (∀ (F D : Type) (decode : List Nat → Option D) (inputs : List (ClientInput F)),
      yieldsMatch 0 (clientRun decode inputs).2) ∧
    (∀ (F D : Type) (decode : List Nat → Option D) (s : ClientState)
        (r : StreamDataResponse),
      r.stream_id = s.stream_id ∨
        @pollStep F D decode s (ClientInput.response r) = (s, [])) := by
  constructor
  · intro F D decode inputs
    exact clientSteps_yieldsMatch decode inputs ⟨0⟩
  · intro F D decode s r
    by_cases hid : r.stream_id = s.stream_id
    · exact Or.inl hid
    · exact Or.inr (by simp [pollStep, hid])

/-- Claim C10. On a `Data` response with a matching `stream_id`, the client
yields a `Data` message whose batch is the received batch filtered through
the decoder — items that fail to decode are silently dropped, no error is
produced, and the yielded batch can be strictly shorter than the received
one (witnessed by `decodeZeroOnly` on the two-item batch `[[0], [1]]`).
`DataMessage.from_stream_data_response` drops undecodable items the same
way. -/
theorem c10_decode_failures_dropped :
    (∀ (F D : Type) (decode : List Nat → Option D) (s : ClientState) (d : DataPayload),
      @pollStep F D decode s
          (ClientInput.response ⟨s.stream_id, some (ResponseMessage.Data d)⟩) =
        (s, [ClientEvent.yielded s.stream_id
          (DataMessage.Data d.cursor (d.end_cursor.getD defaultCursor) d.finality
            (d.data.filterMap decode))])) ∧
    (∀ (D : Type) (decode : List Nat → Option D) (sid : Nat) (d : DataPayload),
      DataMessage.from_stream_data_response decode ⟨sid, some (ResponseMessage.Data d)⟩ =
        some (DataMessage.Data d.cursor (d.end_cursor.getD defaultCursor) d.finality
          (d.data.filterMap decode))) ∧
    (∀ (D : Type) (decode : List Nat → Option D) (d : DataPayload),
      (d.data.filterMap decode).length ≤ d.data.length) ∧
    (@pollStep Nat Nat decodeZeroOnly ⟨1⟩ (ClientInput.response
        ⟨1, some (ResponseMessage.Data ⟨none, none, 0, [[0], [1]]⟩)⟩)).2 =
      [ClientEvent.yielded 1 (DataMessage.Data none defaultCursor 0 [0])] ∧
    ([[0], [1]].filterMap decodeZeroOnly).length < ([[0], [1]] : List (List Nat)).length := by
  refine ⟨?_, ?_, ?_, by decide, by decide⟩
  · intro F D decode s d
    simp [pollStep]
  · intro D decode sid d
    rfl
  · intro D decode d
    exact List.length_filterMap_le _ _

end Dna
